import Mathlib

/-!
Shallow embedding of the Intelligent AI Hub SharePoint front-end
(chat page, dashboard page, hub card, and create-hub modal) and proofs
about its hub-switch protocol, chat send/retry logic, session guard,
file-drop validation, chat-history persistence, error normalization,
and file-size formatting.
-/

set_option maxHeartbeats 1000000

/-- Browser `localStorage`, modelled as an association list from keys to
string values.  `window.localStorage` is a single flat string-to-string
map, which this represents exactly (most recent binding first). -/
def Store := List (String × String)

instance : DecidableEq Store := by
  unfold Store
  infer_instance

/-- `localStorage.getItem k` : the value bound to `k`, if any. -/
def Store.getItem (st : Store) (k : String) : Option String :=
  (st.find? (fun p => p.1 = k)).map (fun p => p.2)

/-- `localStorage.removeItem k`. -/
def Store.removeItem (st : Store) (k : String) : Store :=
  st.filter (fun p => p.1 ≠ k)

/-- `localStorage.setItem k v`. -/
def Store.setItem (st : Store) (k : String) (v : String) : Store :=
  (k, v) :: st.removeItem k

/-- The role of a chat message (the `role` field of `Message`). -/
inductive Role where
  | user
  | assistant
deriving DecidableEq, Repr

/-- A chat message as kept in the `messages` state of the chat page
(`id`/`timestamp` are client bookkeeping; `sources` is dropped as it
never influences control flow). -/
structure Msg where
  role : Role
  content : String
deriving DecidableEq, Repr

/-- The JSON rendering of a message's `role` field. -/
def roleString : Role → String
  | .user => "user"
  | .assistant => "assistant"

/-- Model of `JSON.stringify` on one message object: a brace-delimited
object literal carrying the `role` and `content` fields. -/
def serializeMsg (m : Msg) : String :=
  "\x7b\x22role\x22:\x22" ++ roleString m.role ++
    "\x22,\x22content\x22:\x22" ++ m.content ++ "\x22\x7d"

/-- The comma-joined body of a serialized message array. -/
def serializeMsgList : List Msg → String
  | [] => ""
  | [m] => serializeMsg m
  | m :: rest => serializeMsg m ++ "," ++ serializeMsgList rest

/-- Model of `JSON.stringify(messages)` as used by the save-messages
effect: a bracket-delimited array of serialized message objects, so
the empty list serializes to `"[]"` and a non-empty list to a strictly
longer string. -/
def serializeMessages (ms : List Msg) : String :=
  "[" ++ serializeMsgList ms ++ "]"

/-- Outcome of one backend round-trip as observed by the client:
`ok` (2xx response), `errResp` (non-2xx response whose body parses),
or `exn` (the fetch promise rejected). -/
inductive FetchOutcome where
  | ok
  | errResp
  | exn
deriving DecidableEq, Repr

/-- The chat page state relevant to hub switching and history
persistence: `selectedHub` (empty string = no selection, as in the
code), `previousHub` (`null` = `none`), the in-memory `messages`
list and the browser store. -/
structure ChatState where
  selectedHub : String
  previousHub : Option String
  messages : List Msg
  store : Store
deriving DecidableEq

/-- Observable events emitted while the chat page runs its hub-switch
protocol.  `unloadDone`/`loadDone` mark the settlement (resolve or
reject) of the corresponding request; `setPrevious` records each
`setPreviousHub` call. -/
inductive HEvent where
  | unloadStart (hub : String)
  | unloadDone (hub : String) (ok : Bool)
  | loadStart (hub : String)
  | loadDone (hub : String) (ok : Bool)
  | setPrevious (v : Option String)
deriving DecidableEq, Repr

/-- `unloadHub(hubName)` from the chat page: POST `/api/hubs/{h}/unload`;
on success, if the unloaded hub is the selected one, clear selection,
previous-hub marker and messages and drop the persisted history key. -/
def unloadHub (h : String) (outcome : FetchOutcome) (st : ChatState) :
    ChatState × List HEvent :=
  match outcome with
  | .ok =>
      if st.selectedHub = h then
        ({ st with
            selectedHub := ""
            previousHub := none
            messages := []
            store := st.store.removeItem ("chat_" ++ h) },
          [.unloadStart h, .unloadDone h true, .setPrevious none])
      else
        (st, [.unloadStart h, .unloadDone h true])
  | .errResp => (st, [.unloadStart h, .unloadDone h false])
  | .exn => (st, [.unloadStart h, .unloadDone h false])

/-- `loadHub()` from the chat page: no-op when nothing is selected;
POST `/api/hubs/{selectedHub}/load`; on a non-2xx response or a network
exception, clear the selection and the previous-hub marker. -/
def loadHub (outcome : FetchOutcome) (st : ChatState) :
    ChatState × List HEvent :=
  if st.selectedHub = "" then (st, [])
  else
    match outcome with
    | .ok => (st, [.loadStart st.selectedHub, .loadDone st.selectedHub true])
    | .errResp =>
        ({ st with selectedHub := "", previousHub := none },
          [.loadStart st.selectedHub, .loadDone st.selectedHub false,
            .setPrevious none])
    | .exn =>
        ({ st with selectedHub := "", previousHub := none },
          [.loadStart st.selectedHub, .loadDone st.selectedHub false,
            .setPrevious none])

/-- The `switchHub` effect body (chat page, `useEffect` on
`selectedHub`): when a hub is selected and differs from the previous
one, await `unloadHub(previousHub)` if a previous hub exists, then
await `loadHub()`, then `setPreviousHub(selectedHub)` with the
closure-captured selection.  `uOut`/`lOut` are the outcomes of the
unload and load round-trips. -/
def switchHub (uOut lOut : FetchOutcome) (st : ChatState) :
    ChatState × List HEvent :=
  if st.selectedHub ≠ "" ∧ some st.selectedHub ≠ st.previousHub then
    let sel := st.selectedHub
    let step1 :=
      match st.previousHub with
      | some prev => unloadHub prev uOut st
      | none => (st, [])
    let step2 := loadHub lOut step1.1
    ({ step2.1 with previousHub := some sel },
      step1.2 ++ step2.2 ++ [.setPrevious (some sel)])
  else (st, [])

/-- Outcome of one `POST /api/chat` attempt: success with an answer,
a non-2xx response whose parsed body may carry a `detail` string
(`none` models an absent/falsy `detail`, in which case the code falls
back to `'Failed to get response'`), or a thrown network exception. -/
inductive ChatOutcome where
  | ok (answer : String)
  | errResp (detail : Option String)
  | exn
deriving DecidableEq, Repr

/-- JavaScript `String.prototype.includes`: `jsIncludes s sub` is true
when `sub` occurs contiguously inside `s`. -/
def jsIncludes (s sub : String) : Bool :=
  decide (sub.toList <:+: s.toList)

/-- JavaScript `String.prototype.trim`: strip leading and trailing
whitespace (a structural implementation over the character list). -/
def jsTrim (s : String) : String :=
  ⟨((s.data.dropWhile Char.isWhitespace).reverse.dropWhile
      Char.isWhitespace).reverse⟩

/-- Observable events of one chat exchange (`sendMessage` and its
scheduled retries).  `attempt` is the `retryCount` of the invocation;
`scheduleRetry n d` records `setTimeout(() => sendMessage(n), d)`. -/
inductive CEvent where
  | appendUser (content : String)
  | requestStart (attempt : Nat)
  | requestDone (attempt : Nat)
  | appendAssistant (content : String) (isError : Bool)
  | scheduleRetry (attempt : Nat) (delayMs : Nat)
deriving DecidableEq, Repr

/-- The render-closure values `sendMessage` reads: `input`,
`selectedHub` and `isLoading` as captured by the render that created
the running invocation (a scheduled retry re-invokes the same
closure, so these are constant across an exchange). -/
structure SendCtx where
  input : String
  hub : String
  isLoading : Bool
deriving DecidableEq, Repr

/-- The error text the code derives from a failed response:
`errorData.detail || 'Failed to get response'`. -/
def respErrorMsg (detail : Option String) : String :=
  match detail with
  | some s => if s = "" then "Failed to get response" else s
  | none => "Failed to get response"

/-- The fixed error text used on a thrown network exception. -/
def netErrorMsg : String := "Network error - please check your connection"

/-- The chat page's retry test for a non-2xx response:
`errorMsg.includes('network') || errorMsg.includes('connection')`. -/
def isNetworkKeyword (msg : String) : Bool :=
  jsIncludes msg "network" || jsIncludes msg "connection"

/-- `sendMessage(retryCount)` from the chat page, as the event trace of
the whole exchange from attempt `n` on.  `o k` is the outcome of the
`POST /api/chat` attempt with `retryCount = k`.  Mirrors the code: the
guard returns on empty trimmed input, no hub or a query in flight; the
user message is appended (optimistically) before the request; a
keyword-matched non-2xx failure with `retryCount < 2` schedules
`sendMessage(retryCount + 1)` after 2000 ms and returns; a network
exception with `retryCount < 2` schedules it after 3000 ms and
returns; otherwise one assistant message (answer or error bubble) is
appended. -/
def sendMessage (o : Nat → ChatOutcome) (ctx : SendCtx) (n : Nat) :
    List CEvent :=
  if jsTrim ctx.input = "" ∨ ctx.hub = "" ∨ ctx.isLoading then []
  else
    let content := jsTrim ctx.input
    let pre := [CEvent.appendUser content, CEvent.requestStart n,
      CEvent.requestDone n]
    match o n with
    | .ok ans => pre ++ [CEvent.appendAssistant ans false]
    | .errResp detail =>
        let errorMsg := respErrorMsg detail
        if h : n < 2 ∧ isNetworkKeyword errorMsg then
          pre ++ [CEvent.scheduleRetry (n + 1) 2000] ++
            sendMessage o ctx (n + 1)
        else
          pre ++ [CEvent.appendAssistant ("Error: " ++ errorMsg) true]
    | .exn =>
        if h : n < 2 then
          pre ++ [CEvent.scheduleRetry (n + 1) 3000] ++
            sendMessage o ctx (n + 1)
        else
          pre ++ [CEvent.appendAssistant ("Error: " ++ netErrorMsg) true]
termination_by 2 - n
decreasing_by
  · omega
  · omega

/-- Whether a chat event is a scheduled automatic retry. -/
def isRetryEvent : CEvent → Bool
  | .scheduleRetry _ _ => true
  | _ => false

/-- Whether a chat event appends an assistant-role message
(answer or error bubble). -/
def isAssistantAppend : CEvent → Bool
  | .appendAssistant _ _ => true
  | _ => false

/-- Whether a chat event appends the visible error bubble. -/
def isErrorBubble : CEvent → Bool
  | .appendAssistant _ isError => isError
  | _ => false

/-- The retry behaviour of one failed attempt as the code implements
it: a keyword-matched non-2xx response retries after 2000 ms, a
network exception retries after 3000 ms, anything else does not
retry.  (The delay depends on the failure kind, not on the attempt
number.) -/
def retryDelay : ChatOutcome → Option Nat
  | .ok _ => none
  | .errResp detail =>
      if isNetworkKeyword (respErrorMsg detail) then some 2000 else none
  | .exn => some 3000

/-- A fixed oracle in which every chat attempt fails with a non-2xx
response whose detail text matches the `network` keyword. -/
def netErrOracle : Nat → ChatOutcome :=
  fun _ => ChatOutcome.errResp (some "network down")

/-- A fixed oracle in which every chat attempt succeeds. -/
def okOracle : Nat → ChatOutcome := fun _ => ChatOutcome.ok "fine"

/-- A concrete send context: non-empty input, a selected hub, no
query in flight. -/
def sampleCtx : SendCtx := ⟨"hello", "alpha", false⟩

/-- Input to a protected page's mount-time session guard: the current
`Date.now()`, the stored `lastPageLoad` stamp (already parsed), the
`justLoggedIn` flag, and the browser's first navigation-timing entry
type (`none` when no entry exists). -/
structure GuardInput where
  now : Nat
  lastLoad : Option Nat
  justLoggedIn : Bool
  navEntryType : Option String
deriving DecidableEq, Repr

/-- Result of running a session guard: whether the page redirected to
`/login` (forced logout) and whether the `lastPageLoad` stamp was
rewritten to `now`. -/
structure GuardResult where
  redirect : Bool
  stamped : Bool
deriving DecidableEq, Repr

/-- The chat page's mount guard (`ChatPage`, first `useEffect`): if
`justLoggedIn` is set, clear it, stamp, allow; else if a stamp exists
and more than 3000 ms have elapsed, clear the session keys and
redirect to `/login`; else stamp and allow.  It never consults the
navigation-timing entry. -/
def chatGuard (inp : GuardInput) : GuardResult :=
  if inp.justLoggedIn then { redirect := false, stamped := true }
  else
    match inp.lastLoad with
    | some t =>
        if inp.now - t > 3000 then { redirect := true, stamped := false }
        else { redirect := false, stamped := true }
    | none => { redirect := false, stamped := true }

/-- The dashboard page's mount guard (`DashboardPage`, first
`useEffect`): like the chat guard, but the logout branch additionally
requires the navigation-timing entry to exist and have type
`'reload'`. -/
def dashboardGuard (inp : GuardInput) : GuardResult :=
  if inp.justLoggedIn then { redirect := false, stamped := true }
  else
    let isActualRefresh := inp.navEntryType = some "reload"
    match inp.lastLoad with
    | some t =>
        if isActualRefresh ∧ inp.now - t > 3000 then
          { redirect := true, stamped := false }
        else { redirect := false, stamped := true }
    | none => { redirect := false, stamped := true }

/-- A file as seen by the create-hub drop zone (`react-dropzone`
accepted/rejected file): name and byte size. -/
structure DFile where
  name : String
  size : Nat
deriving DecidableEq, Repr

/-- The per-file size ceiling of the upload zone: `50 * 1024 * 1024`. -/
def maxUploadSize : Nat := 50 * 1024 * 1024

/-- Toasts the drop handler can raise, with the counts the code
interpolates into the message text. -/
inductive DropToast where
  | tooLarge (count : Nat)
  | rejectedFormat (count : Nat)
  | added (count : Nat)
deriving DecidableEq, Repr

/-- The `useDropzone` `onDrop` handler of `CreateHubModal`: split the
accepted batch by the 50 MB ceiling, toast a count-based notice for
oversized files and for format-rejected files, and append the valid
files (in batch order) to the pending `uploadedFiles` list.  Returns
the new pending list and the toasts raised. -/
def onDrop (acceptedFiles rejectedFiles pending : List DFile) :
    List DFile × List DropToast :=
  let validFiles := acceptedFiles.filter (fun f => f.size ≤ maxUploadSize)
  let oversizedFiles := acceptedFiles.filter (fun f => maxUploadSize < f.size)
  let toasts1 :=
    if oversizedFiles.length > 0 then [DropToast.tooLarge oversizedFiles.length]
    else []
  let toasts2 :=
    if rejectedFiles.length > 0 then
      [DropToast.rejectedFormat rejectedFiles.length]
    else []
  let toasts3 :=
    if validFiles.length > 0 then [DropToast.added validFiles.length] else []
  let newPending :=
    if validFiles.length > 0 then pending ++ validFiles else pending
  (newPending, toasts1 ++ toasts2 ++ toasts3)

/-- The count carried by the oversize notice among a toast list, if
one was raised. -/
def oversizeNotice : List DropToast → Option Nat
  | [] => none
  | DropToast.tooLarge c :: _ => some c
  | _ :: rest => oversizeNotice rest

/-- `clearChat` from the chat page: empty the in-memory list, remove
the selected hub's persisted history key (the code guards on a truthy
`selectedHub`), toast success. -/
def clearChat (st : ChatState) : ChatState :=
  { st with
      messages := []
      store :=
        if st.selectedHub ≠ "" then
          st.store.removeItem ("chat_" ++ st.selectedHub)
        else st.store }

/-- The save-messages effect of the chat page (`useEffect` on
`[messages, selectedHub]`): persist the serialized list under
`chat_<selectedHub>` only when the list is non-empty and a hub is
selected. -/
def saveMessagesEffect (st : ChatState) : ChatState :=
  if st.messages.length > 0 ∧ st.selectedHub ≠ "" then
    { st with
        store := st.store.setItem ("chat_" ++ st.selectedHub)
          (serializeMessages st.messages) }
  else st

/-- The chat-history invariant: every value persisted under a
`chat_<hub>` key is the serialization of some non-empty message
list. -/
def ChatHistInvariant (store : Store) : Prop :=
  ∀ hub v, store.getItem ("chat_" ++ hub) = some v →
    ∃ ms : List Msg, ms ≠ [] ∧ v = serializeMessages ms

/-- The operations of the chat page that touch persisted chat
history: the save-messages effect, `clearChat`, and `unloadHub`. -/
inductive ChatOp where
  | save
  | clear
  | unload (hub : String) (outcome : FetchOutcome)
deriving DecidableEq, Repr

/-- Apply one history-touching chat-page operation to the state. -/
def applyChatOp (op : ChatOp) (st : ChatState) : ChatState :=
  match op with
  | .save => saveMessagesEffect st
  | .clear => clearChat st
  | .unload hub outcome => (unloadHub hub outcome st).1

/-- An element of a backend error `detail` array (or the `detail`
object itself): an object that may carry `msg` and/or `message`
fields.  `none` models an absent or falsy field. -/
structure ErrItem where
  msg : Option String := none
  message : Option String := none
deriving DecidableEq, Repr

/-- The shapes the backend's `detail` field can take. -/
inductive ErrDetail where
  | str (s : String)
  | obj (item : ErrItem)
  | arr (items : List ErrItem)
deriving DecidableEq, Repr

/-- A parsed error response body: an optional `detail` field plus an
optional top-level `message` field. -/
structure ErrBody where
  detail : Option ErrDetail := none
  message : Option String := none
deriving DecidableEq, Repr

/-- JavaScript truthiness for an optional string field: absent and
empty strings are falsy. -/
def truthyStr (v : Option String) : Option String :=
  match v with
  | some s => if s = "" then none else some s
  | none => none

/-- JavaScript `a || b` over two optional string fields. -/
def jsOr (a b : Option String) : Option String :=
  match truthyStr a with
  | some s => some s
  | none => truthyStr b

/-- `if (error.detail)`: JavaScript truthiness of the `detail` field
(an empty string is falsy; objects and arrays are always truthy). -/
def detailTruthy : Option ErrDetail → Bool
  | none => false
  | some (.str s) => !(s = "")
  | some (.obj _) => true
  | some (.arr _) => true

/-- Model of `JSON.stringify` on an error-detail object. -/
def stringifyItem (it : ErrItem) : String :=
  "\x7b" ++
    String.intercalate ","
      ((match it.msg with
        | some s => ["\x22msg\x22:\x22" ++ s ++ "\x22"]
        | none => []) ++
      (match it.message with
        | some s => ["\x22message\x22:\x22" ++ s ++ "\x22"]
        | none => [])) ++
  "\x7d"

/-- Model of `JSON.stringify` on a `detail` value. -/
def stringifyDetail : ErrDetail → String
  | .str s => "\x22" ++ s ++ "\x22"
  | .obj it => stringifyItem it
  | .arr items => "[" ++ String.intercalate "," (items.map stringifyItem) ++ "]"

/-- Model of `JSON.stringify` on a whole error body. -/
def stringifyBody (b : ErrBody) : String :=
  "\x7b" ++
    String.intercalate ","
      ((match b.detail with
        | some d => ["\x22detail\x22:" ++ stringifyDetail d]
        | none => []) ++
      (match b.message with
        | some s => ["\x22message\x22:\x22" ++ s ++ "\x22"]
        | none => [])) ++
  "\x7d"

/-- The display string `handleSync` (hub card) derives from a failed
`POST /api/hubs/{name}/sync` response.  `parsed = none` models
`response.json()` throwing, which lands in the outer catch and shows
the bare `'Sync failed'` toast; otherwise the `detail` field is
shape-sniffed: array of objects (join `err.msg || err.message` with
`', '`), plain string, or object with a truthy `msg`. -/
def syncErrorMessage (parsed : Option ErrBody) : String :=
  match parsed with
  | none => "Sync failed"
  | some body =>
      if detailTruthy body.detail then
        match body.detail with
        | some (.arr items) =>
            String.intercalate ", "
              (items.map (fun it => (jsOr it.msg it.message).getD ""))
        | some (.str s) => s
        | some (.obj it) =>
            match truthyStr it.msg with
            | some m => m
            | none => "Sync failed"
        | none => "Sync failed"
      else "Sync failed"

/-- The display string `handleCreateHub` (dashboard page) derives from
a failed hub-creation response.  `parsed = none` models
`response.json()` throwing, which is caught and produces
``Server error (<status>): <statusText>``; otherwise the `detail`
field is shape-sniffed with `JSON.stringify` fallbacks, and in the
absence of a truthy `detail` the top-level `message` field or the
stringified body is used. -/
def createHubErrorMessage (status : Nat) (statusText : String)
    (parsed : Option ErrBody) : String :=
  match parsed with
  | none => "Server error (" ++ toString status ++ "): " ++ statusText
  | some body =>
      if detailTruthy body.detail then
        match body.detail with
        | some (.arr items) =>
            String.intercalate ", "
              (items.map (fun it =>
                (jsOr it.msg it.message).getD (stringifyItem it)))
        | some (.str s) => s
        | some (.obj it) =>
            match truthyStr it.msg with
            | some m => m
            | none => stringifyDetail (.obj it)
        | none => "Failed to create hub"
      else
        match truthyStr body.message with
        | some m => m
        | none => stringifyBody body

/-- The unit labels of `formatFileSize`: `['Bytes', 'KB', 'MB', 'GB']`. -/
def sizeUnits : List String := ["Bytes", "KB", "MB", "GB"]

/-- The unit index `formatFileSize` computes for a non-zero byte
count: `Math.floor(Math.log(bytes) / Math.log(1024))`. -/
noncomputable def unitIndex (bytes : Nat) : ℤ :=
  ⌊Real.log bytes / Real.log 1024⌋

/-- JavaScript array indexing `sizes[i]`: `undefined` (here `none`)
when the index is negative or out of bounds. -/
def lookupUnit (i : ℤ) : Option String :=
  if 0 ≤ i then sizeUnits.get? i.toNat else none

/-- The unit label `formatFileSize` attaches to a byte count: the
guarded zero case returns the literal `'0 Bytes'`; otherwise the label
is looked up at the computed logarithmic index (`none` models an
out-of-bounds access yielding `undefined`). -/
noncomputable def formatFileSizeUnit (bytes : Nat) : Option String :=
  if bytes = 0 then some "0 Bytes" else lookupUnit (unitIndex bytes)

/-- C1: when the selected chat hub changes from a previously active
hub `A` to a different hub `B`, the switch effect's full event trace
is: the unload of `A` starts and settles (resolve or reject), only
then does the load of `B` start and settle, and the only
`setPreviousHub` call with value `B` is the final event, after the
load call has completed (with an intervening `setPreviousHub(null)`
exactly when the load failed). -/
theorem switchHub_unload_then_load (uOut lOut : FetchOutcome)
    (st : ChatState) (A B : String) (hprev : st.previousHub = some A)
    (hsel : st.selectedHub = B) (hB : B ≠ "") (hAB : A ≠ B) :
    (switchHub uOut lOut st).2 =
      [HEvent.unloadStart A, HEvent.unloadDone A (decide (uOut = .ok)),
        HEvent.loadStart B, HEvent.loadDone B (decide (lOut = .ok))] ++
      (if lOut = .ok then [] else [HEvent.setPrevious none]) ++
      [HEvent.setPrevious (some B)] := by
  subst hsel
  have hne : st.selectedHub ≠ A := fun h => hAB (h.symm)
  cases uOut <;> cases lOut <;>
    simp [switchHub, unloadHub, loadHub, hprev, hB, hne]

/-- Witness for `switchHub_unload_then_load` at a concrete state. -/
theorem switchHub_unload_then_load_witness :
    (switchHub FetchOutcome.ok FetchOutcome.errResp
        ⟨"beta", some "alpha", [], []⟩).2 =
      [HEvent.unloadStart "alpha", HEvent.unloadDone "alpha" true,
        HEvent.loadStart "beta", HEvent.loadDone "beta" false,
        HEvent.setPrevious none, HEvent.setPrevious (some "beta")] := by
  have h := switchHub_unload_then_load FetchOutcome.ok FetchOutcome.errResp
    ⟨"beta", some "alpha", [], []⟩ "alpha" "beta" rfl rfl
    (by decide) (by decide)
  simpa using h

/-- C4: at the concrete failing input — a fresh selection of hub
`"beta"` (no previous hub) whose load request fails — the hub-switch
sequence ends with the selection cleared but the previously-active
marker set to `"beta"`: `loadHub`'s failure branch sets
`previousHub` to `null`, and `switchHub` then unconditionally runs
`setPreviousHub(selectedHub)`, re-establishing the marker for the hub
that never loaded.  The claim (and the code's own cleanup in the
failure branch) requires both fields cleared. -/
theorem switchHub_load_failure_leaves_marker :
    (switchHub FetchOutcome.ok FetchOutcome.errResp
        ⟨"beta", none, [], []⟩).1.selectedHub = "" ∧
    (switchHub FetchOutcome.ok FetchOutcome.errResp
        ⟨"beta", none, [], []⟩).1.previousHub = some "beta" := by
  constructor <;> rfl

/-- Appending on the left of `String.append` is cancellative. -/
theorem string_append_left_cancel {a b c : String} (h : a ++ b = a ++ c) :
    b = c := by
  have h2 : a.data ++ b.data = a.data ++ c.data := by
    simpa [String.append] using congrArg String.data h
  have h3 := List.append_cancel_left h2
  cases b
  cases c
  simp only at h3
  simp [h3]

/-- Removing a key makes it unreadable. -/
theorem Store.getItem_removeItem_self (st : Store) (k : String) :
    (st.removeItem k).getItem k = none := by
  simp only [Store.removeItem, Store.getItem]
  have hfind : List.find? (fun p => decide (p.1 = k))
      (List.filter (fun p => decide (p.1 ≠ k)) st) = none := by
    rw [List.find?_eq_none]
    intro x hx
    have hmem := List.of_mem_filter hx
    simp at hmem ⊢
    exact hmem
  rw [hfind]
  rfl

/-- Removing a key leaves every other key unchanged. -/
theorem Store.getItem_removeItem_ne (st : Store) (k j : String) (h : j ≠ k) :
    (st.removeItem k).getItem j = st.getItem j := by
  induction st with
  | nil => rfl
  | cons p rest ih =>
      simp only [Store.removeItem, Store.getItem] at ih ⊢
      by_cases hp : p.1 = k
      · have hj : ¬ (p.1 = j) := by
          rw [hp]
          exact fun hh => h hh.symm
        rw [List.filter_cons_of_neg (by simpa using hp),
          List.find?_cons_of_neg _ (by simpa using hj)]
        exact ih
      · by_cases hj : p.1 = j
        · rw [List.filter_cons_of_pos (by simpa using hp),
            List.find?_cons_of_pos _ (by simpa using hj),
            List.find?_cons_of_pos _ (by simpa using hj)]
        · rw [List.filter_cons_of_pos (by simpa using hp),
            List.find?_cons_of_neg _ (by simpa using hj),
            List.find?_cons_of_neg _ (by simpa using hj)]
          exact ih

/-- Writing a key makes it readable with the written value. -/
theorem Store.getItem_setItem_self (st : Store) (k v : String) :
    (st.setItem k v).getItem k = some v := by
  simp [Store.setItem, Store.getItem, List.find?_cons_of_pos]

/-- Writing a key leaves every other key unchanged. -/
theorem Store.getItem_setItem_ne (st : Store) (k j v : String) (h : j ≠ k) :
    (st.setItem k v).getItem j = st.getItem j := by
  simp only [Store.setItem, Store.getItem]
  rw [List.find?_cons_of_neg _ (by simpa using fun hh : k = j => h hh.symm)]
  have := Store.getItem_removeItem_ne st k j h
  simpa [Store.removeItem, Store.getItem] using this

/-- Distinct hub names give distinct history keys. -/
theorem chatKey_ne {X Y : String} (h : Y ≠ X) :
    ("chat_" ++ Y : String) ≠ "chat_" ++ X :=
  fun hk => h (string_append_left_cancel hk)

/-- C7: clearing chat while hub `X` is selected removes exactly the
persisted entry keyed `chat_X` and leaves the entry of every other
hub `Y` unchanged. -/
theorem clearChat_frame (st : ChatState) (X Y : String)
    (hsel : st.selectedHub = X) (hX : X ≠ "") (hXY : Y ≠ X) :
    (clearChat st).store.getItem ("chat_" ++ X) = none ∧
    (clearChat st).store.getItem ("chat_" ++ Y) =
      st.store.getItem ("chat_" ++ Y) := by
  subst hsel
  constructor
  · simp only [clearChat, hX, ne_eq, not_false_iff, if_pos]
    exact Store.getItem_removeItem_self st.store ("chat_" ++ st.selectedHub)
  · simp only [clearChat, hX, ne_eq, not_false_iff, if_pos]
    exact Store.getItem_removeItem_ne st.store ("chat_" ++ st.selectedHub)
      ("chat_" ++ Y) (chatKey_ne hXY)

/-- Witness for `clearChat_frame`: clearing while `"alpha"` is selected
removes `chat_alpha` and leaves `chat_beta` bound. -/
theorem clearChat_frame_witness :
    (clearChat ⟨"alpha", none, [],
        [("chat_alpha", "hi"), ("chat_beta", "yo")]⟩).store.getItem
      ("chat_alpha") = none ∧
    (clearChat ⟨"alpha", none, [],
        [("chat_alpha", "hi"), ("chat_beta", "yo")]⟩).store.getItem
      ("chat_beta") =
      (Store.getItem [("chat_alpha", "hi"), ("chat_beta", "yo")]
        ("chat_beta")) := by
  have h := clearChat_frame
    ⟨"alpha", none, [], [("chat_alpha", "hi"), ("chat_beta", "yo")]⟩
    "alpha" "beta" rfl (by decide) (by decide)
  simpa using h


/-- The condition the claim names for forcing logout: the
navigation-type entry indicates a reload and more than 3000 ms have
elapsed since the stored stamp. -/
def claimedLogoutCond (inp : GuardInput) : Prop :=
  inp.navEntryType = some "reload" ∧
    ∃ t, inp.lastLoad = some t ∧ inp.now - t > 3000

/-- C5 counterexample: on the chat page, with the just-logged-in flag
unset, a stamp 4000 ms old and a navigation-type entry of
`'navigate'` (not a reload), the guard forces logout even though the
claimed logout condition is false — the chat page's guard never
consults the navigation-type entry. -/
theorem chatGuard_logout_without_reload :
    (chatGuard ⟨4000, some 0, false, some "navigate"⟩).redirect = true ∧
    ¬ claimedLogoutCond ⟨4000, some 0, false, some "navigate"⟩ := by
  constructor
  · rfl
  · intro h
    exact absurd h.1 (by decide)

/-- Dashboard side of the session-guard behaviour: with the just-logged-in flag unset,
the dashboard guard forces logout exactly when the navigation-type
entry indicates a reload and more than 3000 ms have elapsed since the
stored stamp; in every other case it allows and restamps. -/
theorem dashboardGuard_characterization (inp : GuardInput)
    (hflag : inp.justLoggedIn = false) :
    ((dashboardGuard inp).redirect = true ↔ claimedLogoutCond inp) ∧
    ((dashboardGuard inp).redirect = false ↔
      (dashboardGuard inp).stamped = true) := by
  cases hload : inp.lastLoad with
  | none => simp [dashboardGuard, claimedLogoutCond, hflag, hload]
  | some t =>
      by_cases hnav : inp.navEntryType = some "reload" <;>
        by_cases htime : 3000 < inp.now - t <;>
        simp [dashboardGuard, claimedLogoutCond, hflag, hload, hnav, htime]

/-- Chat side of the session-guard behaviour: with the just-logged-in flag unset, the
chat page guard forces logout exactly when more than 3000 ms have
elapsed since the stored stamp, regardless of the navigation-type
entry; in every other case it allows and restamps. -/
theorem chatGuard_characterization (inp : GuardInput)
    (hflag : inp.justLoggedIn = false) :
    ((chatGuard inp).redirect = true ↔
      ∃ t, inp.lastLoad = some t ∧ inp.now - t > 3000) ∧
    ((chatGuard inp).redirect = false ↔ (chatGuard inp).stamped = true) := by
  cases hload : inp.lastLoad with
  | none => simp [chatGuard, hflag, hload]
  | some t =>
      by_cases htime : 3000 < inp.now - t <;>
        simp [chatGuard, hflag, hload, htime]

/-- C5 amended: with the just-logged-in flag unset, the dashboard
guard forces logout exactly when the navigation-type entry indicates
a reload and more than 3000 ms have elapsed since the stored stamp,
while the chat page guard forces logout exactly when more than
3000 ms have elapsed, regardless of navigation type; in every other
case each guard allows the page and rewrites the stamp. -/
theorem sessionGuard_characterization (inp : GuardInput)
    (hflag : inp.justLoggedIn = false) :
    ((dashboardGuard inp).redirect = true ↔ claimedLogoutCond inp) ∧
    ((dashboardGuard inp).redirect = false ↔
      (dashboardGuard inp).stamped = true) ∧
    ((chatGuard inp).redirect = true ↔
      ∃ t, inp.lastLoad = some t ∧ inp.now - t > 3000) ∧
    ((chatGuard inp).redirect = false ↔ (chatGuard inp).stamped = true) := by
  obtain ⟨hd1, hd2⟩ := dashboardGuard_characterization inp hflag
  obtain ⟨hc1, hc2⟩ := chatGuard_characterization inp hflag
  exact ⟨hd1, hd2, hc1, hc2⟩

/-- Witness for `sessionGuard_characterization`. -/
theorem sessionGuard_characterization_witness :
    ((dashboardGuard ⟨4000, some 0, false, some "reload"⟩).redirect = true ↔
      claimedLogoutCond ⟨4000, some 0, false, some "reload"⟩) ∧
    ((dashboardGuard ⟨4000, some 0, false, some "reload"⟩).redirect = false ↔
      (dashboardGuard ⟨4000, some 0, false, some "reload"⟩).stamped = true) ∧
    ((chatGuard ⟨4000, some 0, false, some "reload"⟩).redirect = true ↔
      ∃ t, (some 0 : Option Nat) = some t ∧ 4000 - t > 3000) ∧
    ((chatGuard ⟨4000, some 0, false, some "reload"⟩).redirect = false ↔
      (chatGuard ⟨4000, some 0, false, some "reload"⟩).stamped = true) :=
  sessionGuard_characterization ⟨4000, some 0, false, some "reload"⟩ rfl

/-- C6: for every dropped batch, the pending upload list is extended
by exactly the accepted files within the 50 MB ceiling, in batch
order (so every accepted file over the ceiling is excluded), and the
oversize notice carries the count of over-ceiling accepted files
exactly when there is at least one. -/
theorem onDrop_spec (a r p : List DFile) :
    (onDrop a r p).1 = p ++ a.filter (fun f => f.size ≤ maxUploadSize) ∧
    oversizeNotice (onDrop a r p).2 =
      (if (a.filter (fun f => maxUploadSize < f.size)).length = 0 then none
        else some (a.filter (fun f => maxUploadSize < f.size)).length) := by
  constructor
  · by_cases h : (a.filter (fun f => f.size ≤ maxUploadSize)).length > 0
    · simp [onDrop, h]
    · have hnil : a.filter (fun f => decide (f.size ≤ maxUploadSize)) = [] :=
        List.length_eq_zero.mp (by omega)
      simp [onDrop, hnil]
  · by_cases hbig : (a.filter (fun f => maxUploadSize < f.size)).length > 0
    · have : ¬ (a.filter (fun f => maxUploadSize < f.size)).length = 0 := by
        omega
      simp [onDrop, hbig, oversizeNotice, this]
    · have hz : (a.filter (fun f => maxUploadSize < f.size)).length = 0 := by
        omega
      by_cases hr : r.length > 0 <;>
        by_cases hv : (a.filter (fun f => f.size ≤ maxUploadSize)).length > 0 <;>
        simp [onDrop, hz, hr, hv, oversizeNotice]

/-- A serialized message object has at least its 9-character opening
delimiter. -/
theorem serializeMsg_data_length (m : Msg) :
    1 ≤ (serializeMsg m).data.length := by
  simp only [serializeMsg, String.data_append, List.length_append,
    List.length_cons, List.length_nil]
  omega

/-- The body of a serialized non-empty message array is non-empty. -/
theorem serializeMsgList_cons_length (m : Msg) (rest : List Msg) :
    1 ≤ (serializeMsgList (m :: rest)).data.length := by
  cases rest with
  | nil => simpa [serializeMsgList] using serializeMsg_data_length m
  | cons r rs =>
      simp only [serializeMsgList, String.data_append, List.length_append]
      have := serializeMsg_data_length m
      omega

/-- A non-empty message list serializes to a string of length at
least 3, hence never to the 2-character `"[]"` that the empty list
serializes to. -/
theorem serializeMessages_cons_length (m : Msg) (rest : List Msg) :
    3 ≤ (serializeMessages (m :: rest)).data.length := by
  simp only [serializeMessages, String.data_append, List.length_append,
    List.length_cons, List.length_nil]
  have hb := serializeMsgList_cons_length m rest
  omega

/-- The chat-history invariant is not trivial: a store binding a
`chat_` key to `"[]"` — the serialization of the empty message list,
which the page would produce if it persisted an empty list — violates
it. -/
theorem ChatHistInvariant_not_trivial :
    ¬ ChatHistInvariant [("chat_x", "[]")] := by
  intro hinv
  obtain ⟨ms, hne, heq⟩ := hinv "x" "[]" rfl
  cases ms with
  | nil => exact hne rfl
  | cons m rest =>
      have hlen := serializeMessages_cons_length m rest
      have hcast : ("[]" : String).data.length =
          (serializeMessages (m :: rest)).data.length := by
        rw [← heq]
      have h2 : ("[]" : String).data.length = 2 := rfl
      omega

/-- The save-messages effect does not touch the store when the guard
(non-empty list and a selected hub) fails. -/
theorem saveMessagesEffect_no_write (st : ChatState)
    (hng : ¬ (st.messages.length > 0 ∧ st.selectedHub ≠ "")) :
    (saveMessagesEffect st).store = st.store := by
  simp [saveMessagesEffect, hng]

/-- `clearChat` removes the selected hub's history entry. -/
theorem clearChat_removes (st : ChatState) (hsel : st.selectedHub ≠ "") :
    (clearChat st).store.getItem ("chat_" ++ st.selectedHub) = none := by
  simp only [clearChat, if_pos hsel]
  exact Store.getItem_removeItem_self st.store ("chat_" ++ st.selectedHub)

/-- A successful unload of the selected hub removes its history
entry. -/
theorem unloadHub_removes (st : ChatState) :
    (unloadHub st.selectedHub FetchOutcome.ok st).1.store.getItem
      ("chat_" ++ st.selectedHub) = none := by
  simp only [unloadHub, if_pos rfl]
  exact Store.getItem_removeItem_self st.store ("chat_" ++ st.selectedHub)

/-- C9: each `chat_<hub>` key holds the serialization of a non-empty
message list, as a non-trivial invariant of the history-touching
operations: every operation (save-messages effect, `clearChat`,
`unloadHub`) preserves it; the save effect writes nothing when the
list is empty or no hub is selected; clearing chat or successfully
unloading the selected hub removes the entry; and the invariant
genuinely excludes stores — one holding `"[]"`, the empty-list
serialization, violates it. -/
theorem chatOp_preserves_ChatHistInvariant (op : ChatOp) (st : ChatState)
    (hinv : ChatHistInvariant st.store) :
    ChatHistInvariant (applyChatOp op st).store ∧
    (¬ (st.messages.length > 0 ∧ st.selectedHub ≠ "") →
      (saveMessagesEffect st).store = st.store) ∧
    (st.selectedHub ≠ "" →
      (clearChat st).store.getItem ("chat_" ++ st.selectedHub) = none) ∧
    (unloadHub st.selectedHub FetchOutcome.ok st).1.store.getItem
      ("chat_" ++ st.selectedHub) = none ∧
    ¬ ChatHistInvariant [("chat_x", "[]")] := by
  refine ⟨?_, saveMessagesEffect_no_write st, clearChat_removes st,
    unloadHub_removes st, ChatHistInvariant_not_trivial⟩
  cases op with
  | save =>
      intro hub v hget
      by_cases hc : st.messages.length > 0 ∧ st.selectedHub ≠ ""
      · simp only [applyChatOp, saveMessagesEffect, if_pos hc] at hget
        by_cases heq : hub = st.selectedHub
        · subst heq
          rw [Store.getItem_setItem_self] at hget
          refine ⟨st.messages, ?_, ?_⟩
          · intro hnil
            rw [hnil] at hc
            simp at hc
          · exact (Option.some.inj hget).symm
        · rw [Store.getItem_setItem_ne _ _ _ _ (chatKey_ne heq)] at hget
          exact hinv hub v hget
      · simp only [applyChatOp, saveMessagesEffect, if_neg hc] at hget
        exact hinv hub v hget
  | clear =>
      intro hub v hget
      by_cases hsel : st.selectedHub ≠ ""
      · simp only [applyChatOp, clearChat, if_pos hsel] at hget
        by_cases heq : hub = st.selectedHub
        · subst heq
          rw [Store.getItem_removeItem_self] at hget
          exact absurd hget (by simp)
        · rw [Store.getItem_removeItem_ne _ _ _ (chatKey_ne heq)] at hget
          exact hinv hub v hget
      · simp only [applyChatOp, clearChat, if_neg hsel] at hget
        exact hinv hub v hget
  | unload h outcome =>
      intro hub v hget
      cases outcome with
      | ok =>
          by_cases hs : st.selectedHub = h
          · simp only [applyChatOp, unloadHub, if_pos hs] at hget
            by_cases heq : hub = h
            · subst heq
              rw [Store.getItem_removeItem_self] at hget
              exact absurd hget (by simp)
            · rw [Store.getItem_removeItem_ne _ _ _ (chatKey_ne heq)] at hget
              exact hinv hub v hget
          · simp only [applyChatOp, unloadHub, if_neg hs] at hget
            exact hinv hub v hget
      | errResp =>
          simp only [applyChatOp, unloadHub] at hget
          exact hinv hub v hget
      | exn =>
          simp only [applyChatOp, unloadHub] at hget
          exact hinv hub v hget

/-- Witness for `chatOp_preserves_ChatHistInvariant`: the empty store
satisfies the invariant and keeps satisfying it after a save. -/
theorem chatOp_preserves_ChatHistInvariant_witness :
    ChatHistInvariant
      (applyChatOp ChatOp.save
        ⟨"alpha", none, [⟨Role.user, "hi"⟩], []⟩).store ∧
    (¬ (([⟨Role.user, "hi"⟩] : List Msg).length > 0 ∧
        ("alpha" : String) ≠ "") →
      (saveMessagesEffect
        ⟨"alpha", none, [⟨Role.user, "hi"⟩], []⟩).store = []) ∧
    (("alpha" : String) ≠ "" →
      (clearChat ⟨"alpha", none, [⟨Role.user, "hi"⟩], []⟩).store.getItem
        ("chat_" ++ "alpha") = none) ∧
    (unloadHub "alpha" FetchOutcome.ok
      ⟨"alpha", none, [⟨Role.user, "hi"⟩], []⟩).1.store.getItem
      ("chat_" ++ "alpha") = none ∧
    ¬ ChatHistInvariant [("chat_x", "[]")] :=
  chatOp_preserves_ChatHistInvariant ChatOp.save
    ⟨"alpha", none, [⟨Role.user, "hi"⟩], []⟩
    (by
      intro hub v hget
      simp [Store.getItem, List.find?] at hget)

/-- C10: `formatFileSize` is total below `1024^4`: the zero case is
guarded (returning `'0 Bytes'`), and for every byte count `b` with
`1 ≤ b < 1024^4` the computed unit index `⌊log b / log 1024⌋` lies in
`[0, 4)`, so the lookup into `['Bytes','KB','MB','GB']` is in bounds
and yields a unit label. -/
theorem formatFileSizeUnit_total (b : Nat) (h1 : 1 ≤ b)
    (h2 : b < 1024 ^ 4) :
    0 ≤ unitIndex b ∧ unitIndex b < 4 ∧
    (∃ u, u ∈ sizeUnits ∧ formatFileSizeUnit b = some u) ∧
    formatFileSizeUnit 0 = some "0 Bytes" := by
  have hb1 : (1 : ℝ) ≤ (b : ℝ) := by exact_mod_cast h1
  have hbpos : (0 : ℝ) < (b : ℝ) := by linarith
  have hlogb : 0 ≤ Real.log b := Real.log_nonneg hb1
  have hlog1024 : 0 < Real.log 1024 := Real.log_pos (by norm_num)
  have hlower : 0 ≤ unitIndex b := by
    unfold unitIndex
    exact Int.floor_nonneg.mpr (div_nonneg hlogb hlog1024.le)
  have hcast : (b : ℝ) < (1024 : ℝ) ^ 4 := by exact_mod_cast h2
  have hlt : Real.log b < 4 * Real.log 1024 := by
    have := Real.log_lt_log hbpos hcast
    rwa [Real.log_pow, Nat.cast_ofNat] at this
  have hupper : unitIndex b < 4 := by
    unfold unitIndex
    rw [Int.floor_lt]
    rw [div_lt_iff₀ hlog1024]
    push_cast
    linarith
  refine ⟨hlower, hupper, ?_, rfl⟩
  have hbne : b ≠ 0 := by omega
  have hidx : (unitIndex b).toNat < sizeUnits.length := by
    have h4 : (unitIndex b).toNat < 4 := by omega
    simpa [sizeUnits] using h4
  refine ⟨sizeUnits.get ⟨(unitIndex b).toNat, hidx⟩, List.get_mem _ _ _, ?_⟩
  simp [formatFileSizeUnit, hbne, lookupUnit, hlower,
    List.get?_eq_get hidx]

/-- Witness for `formatFileSizeUnit_total` at 5 bytes. -/
theorem formatFileSizeUnit_total_witness :
    0 ≤ unitIndex 5 ∧ unitIndex 5 < 4 ∧
    (∃ u, u ∈ sizeUnits ∧ formatFileSizeUnit 5 = some u) ∧
    formatFileSizeUnit 0 = some "0 Bytes" :=
  formatFileSizeUnit_total 5 (by norm_num) (by norm_num)

/-- C8 counterexample: when parsing the error body of a failed sync
(a lifecycle operation) throws, the displayed message is the bare
`'Sync failed'`, which contains no digit and therefore cannot
include any HTTP status — only the hub-creation handler falls back
to a status-bearing message. -/
theorem syncErrorMessage_parse_failure_lacks_status :
    syncErrorMessage none = "Sync failed" ∧
    "Sync failed".toList.all (fun c => !c.isDigit) = true ∧
    createHubErrorMessage 500 "Internal Server Error" none =
      "Server error (500): Internal Server Error" :=
  ⟨rfl, by decide, rfl⟩

/-- C8 amended: both handlers normalize all three `detail` shapes —
plain string, object with a truthy `msg`, and array of objects joined
with `', '` — to a single display string, but on a parse failure only
the hub-creation handler includes the HTTP status; the sync handler
falls back to the generic `'Sync failed'`. -/
theorem errorDetail_normalization (status : Nat) (statusText : String)
    (s : String) (hs : s ≠ "") (m : String) (hm : m ≠ "")
    (items : List ErrItem) :
    syncErrorMessage (some ⟨some (.str s), none⟩) = s ∧
    createHubErrorMessage status statusText (some ⟨some (.str s), none⟩)
      = s ∧
    syncErrorMessage (some ⟨some (.obj ⟨some m, none⟩), none⟩) = m ∧
    createHubErrorMessage status statusText
      (some ⟨some (.obj ⟨some m, none⟩), none⟩) = m ∧
    syncErrorMessage (some ⟨some (.arr items), none⟩) =
      String.intercalate ", "
        (items.map (fun it => (jsOr it.msg it.message).getD "")) ∧
    createHubErrorMessage status statusText
      (some ⟨some (.arr items), none⟩) =
      String.intercalate ", "
        (items.map (fun it => (jsOr it.msg it.message).getD
          (stringifyItem it))) ∧
    syncErrorMessage none = "Sync failed" ∧
    createHubErrorMessage status statusText none =
      "Server error (" ++ toString status ++ "): " ++ statusText := by
  refine ⟨?_, ?_, ?_, ?_, rfl, rfl, rfl, rfl⟩ <;>
    simp [syncErrorMessage, createHubErrorMessage, detailTruthy,
      truthyStr, hs, hm]

/-- Witness for `errorDetail_normalization` at concrete payloads. -/
theorem errorDetail_normalization_witness :
    syncErrorMessage (some ⟨some (.str "boom"), none⟩) = "boom" ∧
    createHubErrorMessage 500 "ISE" (some ⟨some (.str "boom"), none⟩)
      = "boom" ∧
    syncErrorMessage (some ⟨some (.obj ⟨some "bad", none⟩), none⟩)
      = "bad" ∧
    createHubErrorMessage 500 "ISE"
      (some ⟨some (.obj ⟨some "bad", none⟩), none⟩) = "bad" ∧
    syncErrorMessage (some ⟨some (.arr []), none⟩) =
      String.intercalate ", "
        (([] : List ErrItem).map (fun it => (jsOr it.msg it.message).getD
          "")) ∧
    createHubErrorMessage 500 "ISE" (some ⟨some (.arr []), none⟩) =
      String.intercalate ", "
        (([] : List ErrItem).map (fun it => (jsOr it.msg it.message).getD
          (stringifyItem it))) ∧
    syncErrorMessage none = "Sync failed" ∧
    createHubErrorMessage 500 "ISE" none =
      "Server error (" ++ toString 500 ++ "): " ++ "ISE" :=
  errorDetail_normalization 500 "ISE" "boom" (by decide) "bad" (by decide) []

/-- Each exchange appends exactly one assistant-role message (fuel
induction on the remaining retry budget). -/
theorem sendMessage_assistant_count_aux (o : Nat → ChatOutcome)
    (ctx : SendCtx) (htrim : jsTrim ctx.input ≠ "") (hhub : ctx.hub ≠ "")
    (hload : ctx.isLoading = false) :
    ∀ k n, 2 - n ≤ k →
      (sendMessage o ctx n).countP isAssistantAppend = 1 := by
  intro k
  induction k with
  | zero =>
      intro n hn
      rw [sendMessage]
      have hn2 : ¬ n < 2 := by omega
      cases h : o n <;>
        simp [htrim, hhub, hload, hn2, isAssistantAppend, List.countP_cons,
          List.countP_append]
  | succ k ih =>
      intro n hn
      rw [sendMessage]
      cases h : o n with
      | ok ans =>
          simp [htrim, hhub, hload, isAssistantAppend, List.countP_cons]
      | errResp detail =>
          by_cases hr : n < 2 ∧ isNetworkKeyword (respErrorMsg detail)
          · have hrec := ih (n + 1) (by omega)
            simp [htrim, hhub, hload, hr, isAssistantAppend,
              List.countP_cons, List.countP_append, hrec]
          · simp [htrim, hhub, hload, hr, isAssistantAppend,
              List.countP_cons]
      | exn =>
          by_cases hr : n < 2
          · have hrec := ih (n + 1) (by omega)
            simp [htrim, hhub, hload, hr, isAssistantAppend,
              List.countP_cons, List.countP_append, hrec]
          · simp [htrim, hhub, hload, hr, isAssistantAppend,
              List.countP_cons]

/-- Every scheduled retry targets attempt `n + 1 ≤ 2` and carries the
delay the code picks for the kind of failure that triggered it. -/
theorem sendMessage_retry_rule_aux (o : Nat → ChatOutcome)
    (ctx : SendCtx) :
    ∀ k n, 2 - n ≤ k → ∀ m d,
      CEvent.scheduleRetry m d ∈ sendMessage o ctx n →
      (n < m ∧ m ≤ 2) ∧ retryDelay (o (m - 1)) = some d := by
  intro k
  induction k with
  | zero =>
      intro n hn m d hmem
      rw [sendMessage] at hmem
      have hn2 : ¬ n < 2 := by omega
      by_cases hg : jsTrim ctx.input = "" ∨ ctx.hub = "" ∨ ctx.isLoading
      · simp [hg] at hmem
      · cases h : o n <;> simp [hg, h, hn2] at hmem
  | succ k ih =>
      intro n hn m d hmem
      rw [sendMessage] at hmem
      by_cases hg : jsTrim ctx.input = "" ∨ ctx.hub = "" ∨ ctx.isLoading
      · simp [hg] at hmem
      · cases h : o n with
        | ok ans => simp [hg, h] at hmem
        | errResp detail =>
            by_cases hr : n < 2 ∧ isNetworkKeyword (respErrorMsg detail)
            · simp [hg, h, hr] at hmem
              rcases hmem with ⟨hm, hd⟩ | hrec
              · subst hm
                subst hd
                refine ⟨⟨by omega, by omega⟩, ?_⟩
                simp [retryDelay, h, hr.2]
              · have := ih (n + 1) (by omega) m d hrec
                exact ⟨⟨by omega, this.1.2⟩, this.2⟩
            · simp [hg, h, hr] at hmem
        | exn =>
            by_cases hr : n < 2
            · simp [hg, h, hr] at hmem
              rcases hmem with ⟨hm, hd⟩ | hrec
              · subst hm
                subst hd
                refine ⟨⟨by omega, by omega⟩, ?_⟩
                simp [retryDelay, h]
              · have := ih (n + 1) (by omega) m d hrec
                exact ⟨⟨by omega, this.1.2⟩, this.2⟩
            · simp [hg, h, hr] at hmem

/-- Starting at attempt `n`, at most `2 - n` retries are scheduled. -/
theorem sendMessage_retryCount_aux (o : Nat → ChatOutcome)
    (ctx : SendCtx) :
    ∀ k n, 2 - n ≤ k →
      (sendMessage o ctx n).countP isRetryEvent ≤ 2 - n := by
  intro k
  induction k with
  | zero =>
      intro n hn
      rw [sendMessage]
      have hn2 : ¬ n < 2 := by omega
      by_cases hg : jsTrim ctx.input = "" ∨ ctx.hub = "" ∨ ctx.isLoading
      · simp [hg]
      · cases h : o n <;>
          simp [hg, h, hn2, isRetryEvent, List.countP_cons]
  | succ k ih =>
      intro n hn
      rw [sendMessage]
      by_cases hg : jsTrim ctx.input = "" ∨ ctx.hub = "" ∨ ctx.isLoading
      · simp [hg]
      · cases h : o n with
        | ok ans => simp [hg, h, isRetryEvent, List.countP_cons]
        | errResp detail =>
            by_cases hr : n < 2 ∧ isNetworkKeyword (respErrorMsg detail)
            · have hrec := ih (n + 1) (by omega)
              simp [hg, h, hr, List.countP_append, List.countP_cons,
                isRetryEvent]
              omega
            · simp [hg, h, hr, isRetryEvent, List.countP_cons]
        | exn =>
            by_cases hr : n < 2
            · have hrec := ih (n + 1) (by omega)
              simp [hg, h, hr, List.countP_append, List.countP_cons,
                isRetryEvent]
              omega
            · simp [hg, h, hr, isRetryEvent, List.countP_cons]

/-- Error bubbles are assistant-role appends, so there are no more of
the former than of the latter. -/
theorem countP_errorBubble_le_assistant (l : List CEvent) :
    l.countP isErrorBubble ≤ l.countP isAssistantAppend := by
  induction l with
  | nil => simp
  | cons e rest ih =>
      cases e with
      | appendAssistant c b =>
          cases b <;>
            simp [List.countP_cons, isErrorBubble, isAssistantAppend] <;>
            omega
      | appendUser c =>
          simpa [List.countP_cons, isErrorBubble, isAssistantAppend] using ih
      | requestStart a =>
          simpa [List.countP_cons, isErrorBubble, isAssistantAppend] using ih
      | requestDone a =>
          simpa [List.countP_cons, isErrorBubble, isAssistantAppend] using ih
      | scheduleRetry a d =>
          simpa [List.countP_cons, isErrorBubble, isAssistantAppend] using ih

/-- C2 counterexample: with every attempt failing as a keyword-matched
backend error, the second automatic retry is scheduled after 2000 ms,
not after the claimed 3000 ms — the delay depends on the failure
kind (2 s for keyword-matched response errors, 3 s for exceptions),
not on the attempt number. -/
theorem sendMessage_backoff_counterexample :
    CEvent.scheduleRetry 1 2000 ∈ sendMessage netErrOracle sampleCtx 0 ∧
    CEvent.scheduleRetry 2 2000 ∈ sendMessage netErrOracle sampleCtx 0 ∧
    CEvent.scheduleRetry 2 3000 ∉ sendMessage netErrOracle sampleCtx 0 := by
  have heq : sendMessage netErrOracle sampleCtx 0 =
      [CEvent.appendUser "hello", CEvent.requestStart 0,
        CEvent.requestDone 0, CEvent.scheduleRetry 1 2000,
        CEvent.appendUser "hello", CEvent.requestStart 1,
        CEvent.requestDone 1, CEvent.scheduleRetry 2 2000,
        CEvent.appendUser "hello", CEvent.requestStart 2,
        CEvent.requestDone 2,
        CEvent.appendAssistant "Error: network down" true] := by
    rw [sendMessage, sendMessage, sendMessage]
    decide
  rw [heq]
  decide

/-- C2 amended: a guarded chat exchange schedules at most 2 automatic
retries; every scheduled retry targets attempt 1 or 2 and waits
exactly the delay the code picks for the failure kind of the
preceding attempt — 2000 ms for a keyword-matched backend error,
3000 ms for a network exception — and at most one visible error
bubble is appended, by the final non-retrying attempt. -/
theorem sendMessage_retry_policy (o : Nat → ChatOutcome) (ctx : SendCtx)
    (htrim : jsTrim ctx.input ≠ "") (hhub : ctx.hub ≠ "")
    (hload : ctx.isLoading = false) :
    (sendMessage o ctx 0).countP isRetryEvent ≤ 2 ∧
    (∀ m d, CEvent.scheduleRetry m d ∈ sendMessage o ctx 0 →
      (1 ≤ m ∧ m ≤ 2) ∧ retryDelay (o (m - 1)) = some d) ∧
    (sendMessage o ctx 0).countP isErrorBubble ≤ 1 := by
  refine ⟨?_, ?_, ?_⟩
  · simpa using sendMessage_retryCount_aux o ctx 2 0 (by omega)
  · intro m d hmem
    have := sendMessage_retry_rule_aux o ctx 2 0 (by omega) m d hmem
    exact ⟨⟨this.1.1, this.1.2⟩, this.2⟩
  · have h1 := countP_errorBubble_le_assistant (sendMessage o ctx 0)
    have h2 := sendMessage_assistant_count_aux o ctx htrim hhub hload 2 0
      (by omega)
    omega

/-- Witness for `sendMessage_retry_policy`. -/
theorem sendMessage_retry_policy_witness :
    (sendMessage netErrOracle sampleCtx 0).countP isRetryEvent ≤ 2 ∧
    (∀ m d, CEvent.scheduleRetry m d ∈ sendMessage netErrOracle sampleCtx 0 →
      (1 ≤ m ∧ m ≤ 2) ∧ retryDelay (netErrOracle (m - 1)) = some d) ∧
    (sendMessage netErrOracle sampleCtx 0).countP isErrorBubble ≤ 1 :=
  sendMessage_retry_policy netErrOracle sampleCtx (by decide) (by decide) rfl

/-- C3: a guarded invocation (non-empty trimmed input, selected hub,
no query in flight) appends the user's message, then starts and
settles the request — so the optimistic append precedes resolution —
and the whole exchange appends exactly one assistant-role message,
retries included. -/
theorem sendMessage_exchange_shape (o : Nat → ChatOutcome) (ctx : SendCtx)
    (htrim : jsTrim ctx.input ≠ "") (hhub : ctx.hub ≠ "")
    (hload : ctx.isLoading = false) :
    (sendMessage o ctx 0).take 3 =
      [CEvent.appendUser (jsTrim ctx.input), CEvent.requestStart 0,
        CEvent.requestDone 0] ∧
    (sendMessage o ctx 0).countP isAssistantAppend = 1 := by
  constructor
  · rw [sendMessage]
    cases h : o 0 with
    | ok ans => simp [htrim, hhub, hload]
    | errResp detail =>
        by_cases hk : isNetworkKeyword (respErrorMsg detail) = true <;>
          simp [htrim, hhub, hload, hk]
    | exn => simp [htrim, hhub, hload]
  · exact sendMessage_assistant_count_aux o ctx htrim hhub hload 2 0 (by omega)

/-- Witness for `sendMessage_exchange_shape`. -/
theorem sendMessage_exchange_shape_witness :
    (sendMessage okOracle sampleCtx 0).take 3 =
      [CEvent.appendUser (jsTrim sampleCtx.input), CEvent.requestStart 0,
        CEvent.requestDone 0] ∧
    (sendMessage okOracle sampleCtx 0).countP isAssistantAppend = 1 :=
  sendMessage_exchange_shape okOracle sampleCtx (by decide) (by decide) rfl
